import Mathlib

/-!
Verification development for the homework-status Telegram bot
(`homework.py`).  The Python program is shallowly embedded: JSON values
decoded from the API are modelled by `PyValue`, Python exceptions by
`PyError`, and the external collaborators (the HTTP endpoint and the
Telegram delivery channel) become explicit inputs (`HttpOutcome`,
`SendOutcome`) consumed by the polling loop.  Observable side effects
(log lines, Notifier calls, the fixed sleep) are recorded in an event
trace.
-/

set_option maxHeartbeats 1000000

namespace HomeworkBot

/-- Frequently used characters, written by code point to keep string
literals free of quote and brace characters: 34 = double quote,
39 = single quote, 92 = backslash, 123 and 125 = braces. -/
def cDq : Char := Char.ofNat 34
def cSq : Char := Char.ofNat 39
def cBs : Char := Char.ofNat 92
def cLb : Char := Char.ofNat 123
def cRb : Char := Char.ofNat 125

mutual
/-- A JSON-like Python value, as produced by `response.json()`.
`PyList` and `PyDict` are mutual companions so that all recursion over
values is structural. -/
inductive PyValue : Type where
  | pnone : PyValue
  | pbool (b : Bool) : PyValue
  | pint (n : Int) : PyValue
  | pstr (s : String) : PyValue
  | plist (xs : PyList) : PyValue
  | pdict (es : PyDict) : PyValue

inductive PyList : Type where
  | nil : PyList
  | cons (v : PyValue) (tl : PyList) : PyList

inductive PyDict : Type where
  | nil : PyDict
  | cons (k : String) (v : PyValue) (tl : PyDict) : PyDict
end

/-- Converts a Lean list of values to the companion list type. -/
def PyList.ofList : List PyValue → PyList
  | [] => .nil
  | v :: tl => .cons v (PyList.ofList tl)

/-- Converts a Lean association list to the companion dict type. -/
def PyDict.ofList : List (String × PyValue) → PyDict
  | [] => .nil
  | (k, v) :: tl => .cons k v (PyDict.ofList tl)

/-- Python `dict` lookup (keys are unique in the dict literals the
program meets, so first-match lookup is faithful). -/
def PyDict.lookup : PyDict → String → Option PyValue
  | .nil, _ => none
  | .cons k v tl, key => if k = key then some v else tl.lookup key

/-- The Python exceptions the embedded code can raise.  `keyError`
stores the single argument of `KeyError(arg)`; all other constructors
store the already formatted message string. -/
inductive PyError : Type where
  | typeError (msg : String)
  | keyError (arg : String)
  | valueError (msg : String)
  | indexError (msg : String)
  | connectionError (msg : String)
  | invalidResponseCode (msg : String)
  | homeworkVerdictNotFound (msg : String)
  | assertionError (msg : String)
deriving DecidableEq

/-- Escapes backslash and single quote, as `repr` does inside a
single-quoted Python string literal. -/
def pyEscapeChars : List Char → List Char
  | [] => []
  | c :: cs =>
    if c = cSq ∨ c = cBs then cBs :: c :: pyEscapeChars cs
    else c :: pyEscapeChars cs

/-- Python `repr` of a text string: single-quoted by default, but
double-quoted when the string contains a single quote and no double
quote (control and non-printable characters, absent from the program
messages, are out of scope). -/
def pyReprOfStr (s : String) : String :=
  if s.data.any (fun c => c == cSq) && !(s.data.any (fun c => c == cDq)) then
    String.mk (cDq :: s.data ++ [cDq])
  else
    String.mk (cSq :: pyEscapeChars s.data ++ [cSq])

/-- A string whose `repr` is itself between plain single quotes: no
single quote and no backslash to escape. -/
def reprSafe (s : String) : Bool :=
  s.data.all (fun c => !(c == cSq) && !(c == cBs))

mutual
/-- Python `repr` of a JSON-like value, used when a value is
interpolated into `str(dict)` or an f-string rendering of a container.
-/
def pyRepr : PyValue → String
  | .pnone => "None"
  | .pbool true => "True"
  | .pbool false => "False"
  | .pint n => toString n
  | .pstr s => pyReprOfStr s
  | .plist xs => "[" ++ pyReprList xs ++ "]"
  | .pdict es => "\x7b" ++ pyReprDict es ++ "\x7d"

def pyReprList : PyList → String
  | .nil => ""
  | .cons v .nil => pyRepr v
  | .cons v tl => pyRepr v ++ ", " ++ pyReprList tl

def pyReprDict : PyDict → String
  | .nil => ""
  | .cons k v .nil => pyReprOfStr k ++ ": " ++ pyRepr v
  | .cons k v tl => pyReprOfStr k ++ ": " ++ pyRepr v ++ ", " ++ pyReprDict tl
end

/-- Python `str` of a value, as an f-string applies it: strings pass
through unquoted, every other value falls back to `repr`. -/
def pyStr : PyValue → String
  | .pstr s => s
  | v => pyRepr v

/-- Python `str` of an exception: `str(KeyError(arg))` is `repr(arg)`,
every other single-argument exception prints its message unchanged. -/
def PyError.toStr : PyError → String
  | .keyError arg => pyReprOfStr arg
  | .typeError msg => msg
  | .valueError msg => msg
  | .indexError msg => msg
  | .connectionError msg => msg
  | .invalidResponseCode msg => msg
  | .homeworkVerdictNotFound msg => msg
  | .assertionError msg => msg

/-- Python `str` of `os.getenv`-style optional strings, as an f-string
renders them (`None` for a missing variable). -/
def optStr : Option String → String
  | none => "None"
  | some s => s

/-- Resolution of one replacement field of `str.format`: an all-digit
name indexes the positional arguments, otherwise the name is looked up
among keyword arguments; a missing keyword raises `KeyError(name)`,
exactly the behaviour that matters on line 77-80 of the source. -/
def formatField (posArgs : List String) (kwargs : List (String × String))
    (name : String) : Except PyError String :=
  if name ≠ "" ∧ name.data.all Char.isDigit then
    match posArgs.get? ((name.toNat?).getD 0) with
    | some v => .ok v
    | none => .error (.indexError "Replacement index out of range")
  else
    match kwargs.lookup name with
    | some v => .ok v
    | none => .error (.keyError name)

/-- Character-by-character model of `str.format` for templates whose
braces all delimit plain replacement fields (the only kind the source
uses).  The first argument is `some acc` while scanning a field name,
`none` in plain text. -/
def pyFormatAux (posArgs : List String) (kwargs : List (String × String)) :
    Option (List Char) → List Char → Except PyError String
  | none, [] => .ok ""
  | none, c :: rest =>
    if c = cLb then pyFormatAux posArgs kwargs (some []) rest
    else (pyFormatAux posArgs kwargs none rest).map
      (fun t => String.singleton c ++ t)
  | some _, [] =>
    .error (.valueError "Single open brace encountered in format string")
  | some acc, c :: rest =>
    if c = cRb then
      match formatField posArgs kwargs (String.mk acc.reverse) with
      | .error e => .error e
      | .ok v => (pyFormatAux posArgs kwargs none rest).map (fun t => v ++ t)
    else pyFormatAux posArgs kwargs (some (c :: acc)) rest

/-- Python `template.format(*posArgs, **kwargs)`. -/
def pyFormat (posArgs : List String) (kwargs : List (String × String))
    (template : String) : Except PyError String :=
  pyFormatAux posArgs kwargs none template.data

/-! Module-level constants of `homework.py`. -/

def RETRY_PERIOD : Nat := 600

def ENDPOINT : String :=
  "https://practicum.yandex.ru/api/user_api/homework_statuses/"

/-- `HEADERS = \x7b'Authorization': f'OAuth \x7bPRACTICUM_TOKEN\x7d'\x7d`:
the token read from the environment may be absent, in which case the
f-string renders it as `None`. -/
def HEADERS (practicum_token : Option String) : List (String × String) :=
  [("Authorization", "OAuth " ++ optStr practicum_token)]

def HOMEWORK_VERDICTS : List (String × String) :=
  [("approved", "Работа проверена: ревьюеру всё понравилось. Ура!"),
   ("reviewing", "Работа взята на проверку ревьюером."),
   ("rejected", "Работа проверена: у ревьюера есть замечания.")]

/-- Python `str` of a string-to-string dict, key and value rendered
with `repr`, used when `\x7bheaders\x7d` is formatted into a message. -/
def strDictReprBody : List (String × String) → String
  | [] => ""
  | [(k, v)] => pyReprOfStr k ++ ": " ++ pyReprOfStr v
  | (k, v) :: tl =>
    pyReprOfStr k ++ ": " ++ pyReprOfStr v ++ ", " ++ strDictReprBody tl

def strDictRepr (l : List (String × String)) : String :=
  "\x7b" ++ strDictReprBody l ++ "\x7d"

/-- `str(HEADERS)`. -/
def headersRepr (practicum_token : Option String) : String :=
  strDictRepr (HEADERS practicum_token)

/-- Python `str` of the query dict `\x7b'from_date': timestamp\x7d`.  The
cursor is kept as a `PyValue` because `main` copies `current_date`
into it without validation. -/
def paramsRepr (timestamp : PyValue) : String :=
  "\x7b" ++ pyReprOfStr "from_date" ++ ": " ++ pyRepr timestamp ++ "\x7d"

/-- The keyword arguments `**api_params` of lines 60-64, already
rendered through `str` as `str.format` renders them. -/
def apiKwargs (practicum_token : Option String) (timestamp : PyValue) :
    List (String × String) :=
  [("url", ENDPOINT),
   ("headers", headersRepr practicum_token),
   ("params", paramsRepr timestamp)]

/-- The info log line of lines 65-68: the template with every field
bound, so plain interpolation is exact. -/
def requestLog (practicum_token : Option String) (timestamp : PyValue) :
    String :=
  "Запрос к эндпоинту " ++ ENDPOINT ++ " с параметрами: "
    ++ headersRepr practicum_token ++ " и " ++ paramsRepr timestamp

/-- The `ConnectionError` message of lines 72-75. -/
def connectionErrMsg (practicum_token : Option String) (timestamp : PyValue) :
    String :=
  "Ошибка при запросе к эндпоинту " ++ ENDPOINT ++ " с параметрами: "
    ++ headersRepr practicum_token ++ " и " ++ paramsRepr timestamp

/-- The template of the `InvalidResponseCode` message on lines 77-80.
Its first field is the NAMED field `response`, while the call site
passes `response.reason` positionally, so formatting this template
raises `KeyError` with argument `response`. -/
def invalidRespTemplate : String :=
  "{response} - Ошибка при запросе к эндпоинту {url} с параметрами: {headers} и {params}"

/-- Observable side effects of one run: log lines at their severity,
Notifier invocations with the message text and the returned boolean,
and the fixed end-of-cycle sleep. -/
inductive Event : Type where
  | logInfo (msg : String)
  | logDebug (msg : String)
  | logError (msg : String)
  | logCritical (msg : String)
  | sendCall (msg : String) (ok : Bool)
  | sleepEv (seconds : Nat)
deriving DecidableEq

/-- Outcome of one `requests.get` call, supplied by the environment:
either a transport failure (`requests.RequestException`) or an HTTP
response with its status code, reason phrase and decoded JSON body. -/
inductive HttpOutcome : Type where
  | network
  | response (status : Nat) (reason : String) (body : PyValue)

/-- Outcome of one `bot.send_message` call, supplied by the
environment: either confirmed delivery or an `ApiException` whose
`str` is the stored message. -/
inductive SendOutcome : Type where
  | delivered
  | apiError (errStr : String)
deriving DecidableEq

/-- `check_tokens` (lines 30-44): names of the falsy environment
variables, in declaration order. -/
def missing_tokens (p t c : Option String) : List String :=
  (([("PRACTICUM_TOKEN", p), ("TELEGRAM_TOKEN", t),
     ("TELEGRAM_CHAT_ID", c)]).filter
    (fun x => match x.2 with
      | none => true
      | some s => s = "")).map (fun x => x.1)

/-- `check_tokens` (lines 30-44): logs critically and raises
`AssertionError` when some required environment variable is missing or
empty, otherwise does nothing. -/
def check_tokens (p t c : Option String) :
    Except PyError Unit × List Event :=
  let check := missing_tokens p t c
  if check.isEmpty then (.ok (), [])
  else
    let message :=
      "Отсутствует переменная(ые) окружения: " ++ String.intercalate ", " check
    (.error (.assertionError message), [.logCritical message])

/-- `send_message` (lines 47-55): attempts delivery, returns `False`
and logs at error severity when the channel raises `ApiException`,
returns `True` and logs at debug severity on success.  The total
return type models the non-throwing contract; the constant
`chat_id=TELEGRAM_CHAT_ID` argument plays no semantic role and is
omitted. -/
def send_message (outcome : SendOutcome) (message : String) :
    Bool × List Event :=
  match outcome with
  | .apiError errStr =>
    (false, [.sendCall message false,
             .logError ("Сбой при отправке сообщения: " ++ errStr)])
  | .delivered =>
    (true, [.sendCall message true,
            .logDebug ("Сообщение отправлено - " ++ message)])

/-- `get_api_answer` (lines 58-81): logs the outgoing request, turns a
transport failure into `ConnectionError`, and on a non-200 status
formats the `InvalidResponseCode` message — a formatting step whose
unbound `\x7bresponse\x7d` field raises `KeyError` instead (the
`response.reason` positional argument is never consulted because the
template has no positional field).  On a 200 status the decoded JSON
body is returned. -/
def get_api_answer (practicum_token : Option String) (http : HttpOutcome)
    (timestamp : PyValue) : Except PyError PyValue × List Event :=
  let infoEv := Event.logInfo (requestLog practicum_token timestamp)
  match http with
  | .network =>
    (.error (.connectionError (connectionErrMsg practicum_token timestamp)),
     [infoEv])
  | .response status reason body =>
    if status ≠ 200 then
      match pyFormat [reason] (apiKwargs practicum_token timestamp)
          invalidRespTemplate with
      | .error e => (.error e, [infoEv])
      | .ok msg => (.error (.invalidResponseCode msg), [infoEv])
    else (.ok body, [infoEv])

/-- `check_response` (lines 84-93): the root must be a dict, the
`homeworks` key must be present, and its value must be a list, which
is returned as-is. -/
def check_response (response : PyValue) : Except PyError PyList :=
  match response with
  | .pdict es =>
    match es.lookup "homeworks" with
    | none => .error (.keyError "Отсутствует ключ \"homeworks\"")
    | some hw =>
      match hw with
      | .plist xs => .ok xs
      | _ => .error (.typeError "В ответе API нет списка домашних работ")
  | _ => .error (.typeError "Ответ API не словарь")

/-- Python subscript `value[key]` with a string key: a dict either
yields the value or raises `KeyError(key)`; subscripting any other
value raises `TypeError` (CPython wording varies by type and version,
one representative message is used). -/
def pySubscript (v : PyValue) (key : String) : Except PyError PyValue :=
  match v with
  | .pdict es =>
    match es.lookup key with
    | some x => .ok x
    | none => .error (.keyError key)
  | _ => .error (.typeError "value is not subscriptable")

/-- Python `status not in HOMEWORK_VERDICTS`: a string is looked up
among the dict keys, other hashable values simply are not members,
and unhashable values (lists, dicts) raise `TypeError`. -/
def verdictsContains (status : PyValue) : Except PyError Bool :=
  match status with
  | .pstr s => .ok ((HOMEWORK_VERDICTS.lookup s).isSome)
  | .plist _ => .error (.typeError "unhashable type: list")
  | .pdict _ => .error (.typeError "unhashable type: dict")
  | _ => .ok false

/-- `HOMEWORK_VERDICTS.get(status)`. -/
def verdictGet (status : PyValue) : Option String :=
  match status with
  | .pstr s => HOMEWORK_VERDICTS.lookup s
  | _ => none

/-- Python `str` of an optional string, as the f-string on line 108
renders `verdict` (`None` when `dict.get` misses, a branch the
membership test makes unreachable). -/
def optVerdictStr : Option String → String
  | none => "None"
  | some s => s

/-- `parse_status` (lines 96-108): reads `homework_name` and `status`,
re-raising a `KeyError` with the message of line 102 (whose f-string
embeds `str(error)`, i.e. `repr` of the missing key); an unknown
status raises `HomeworkVerdictNotFound`; otherwise the fixed sentence
of line 108 is produced. -/
def parse_status (homework : PyValue) : Except PyError String :=
  match pySubscript homework "homework_name" with
  | .error (.keyError k) =>
    .error (.keyError ("В ответе API нет значения " ++ pyReprOfStr k))
  | .error e => .error e
  | .ok homework_name =>
    match pySubscript homework "status" with
    | .error (.keyError k) =>
      .error (.keyError ("В ответе API нет значения " ++ pyReprOfStr k))
    | .error e => .error e
    | .ok status =>
      match verdictsContains status with
      | .error e => .error e
      | .ok false =>
        .error (.homeworkVerdictNotFound
          ("Неверный статус домашней работы " ++ pyStr status))
      | .ok true =>
        .ok ("Изменился статус проверки работы \"" ++ pyStr homework_name
          ++ "\". " ++ optVerdictStr (verdictGet status))

/-- Python `response.get(key)` on a decoded JSON value: a lookup on a
dict, `None`-like absence on anything else (the call site is only
reached after `check_response` proved the value is a dict). -/
def PyValue.dictGet : PyValue → String → Option PyValue
  | .pdict es, key => es.lookup key
  | _, _ => none

/-- The mutable state of `main` (lines 114-116): the dedup variable
`last_status` and the polling cursor `timestamp` (a `PyValue`: line
128 copies `current_date` into it without validation). -/
structure MainState : Type where
  last_status : String
  timestamp : PyValue

/-- Externally supplied behaviour for one cycle: what `requests.get`
does and what `bot.send_message` would do, were it called. -/
structure CycleInput : Type where
  http : HttpOutcome
  send : SendOutcome

/-- The `except Exception` handler of lines 129-133: builds the
diagnostic message, logs it, and — when it differs from `last_status`
— makes one delivery attempt, overwriting `last_status` only when
delivery is confirmed.  The cursor is untouched; the `finally` sleep
of line 135 closes the cycle. -/
def errorHandler (send : SendOutcome) (st : MainState) (e : PyError)
    (evPrev : List Event) : MainState × List Event :=
  let message := "Сбой в работе программы: " ++ e.toStr
  let evBase := evPrev ++ [.logError message]
  if st.last_status ≠ message then
    let r := send_message send message
    if r.1 then
      ({ st with last_status := message },
       evBase ++ r.2 ++ [.sleepEv RETRY_PERIOD])
    else (st, evBase ++ r.2 ++ [.sleepEv RETRY_PERIOD])
  else (st, evBase ++ [.sleepEv RETRY_PERIOD])

/-- One iteration of the `while True` body (lines 117-135): fetch,
validate, handle the empty list with a debug log and `continue`,
interpret the first record, and run the short-circuit
`status != last_status and send_message(...)` guard, advancing
`last_status` and the cursor only when a new message is delivered.
Every failure of the three pipeline stages funnels into
`errorHandler`; every exit path ends in the `finally` sleep. -/
def runCycle (practicum_token : Option String) (inp : CycleInput)
    (st : MainState) : MainState × List Event :=
  let fetched := get_api_answer practicum_token inp.http st.timestamp
  match fetched.1 with
  | .error e => errorHandler inp.send st e fetched.2
  | .ok response =>
    match check_response response with
    | .error e => errorHandler inp.send st e fetched.2
    | .ok .nil =>
      (st, fetched.2 ++ [.logDebug "Получен пустой список домашних работ",
                         .sleepEv RETRY_PERIOD])
    | .ok (.cons hw _) =>
      match parse_status hw with
      | .error e => errorHandler inp.send st e fetched.2
      | .ok status_home_work =>
        if status_home_work ≠ st.last_status then
          let r := send_message inp.send status_home_work
          if r.1 then
            ({ last_status := status_home_work,
               timestamp :=
                 (response.dictGet "current_date").getD st.timestamp },
             fetched.2 ++ r.2 ++ [.sleepEv RETRY_PERIOD])
          else (st, fetched.2 ++ r.2 ++ [.sleepEv RETRY_PERIOD])
        else (st, fetched.2 ++ [.sleepEv RETRY_PERIOD])

/-- A finite prefix of the infinite polling loop: each supplied
`CycleInput` drives exactly one iteration; the per-cycle event traces
are returned in order. -/
def runLoop (practicum_token : Option String) :
    List CycleInput → MainState → MainState × List (List Event)
  | [], st => (st, [])
  | inp :: rest, st =>
    let step := runCycle practicum_token inp st
    let further := runLoop practicum_token rest step.1
    (further.1, step.2 :: further.2)

/-- The state `main` builds on lines 114-116: empty `last_status`,
cursor at `int(time.time())`. -/
def initState (startTime : Int) : MainState :=
  { last_status := "", timestamp := .pint startTime }

/-- `main` (lines 111-135) on a finite schedule of cycle inputs:
`check_tokens` first — an `AssertionError` there terminates the
process before the loop (`none` final state, only the critical log in
the trace) — otherwise the loop runs from `initState`. -/
def mainRun (p t c : Option String) (startTime : Int)
    (inputs : List CycleInput) : Option MainState × List Event :=
  let checked := check_tokens p t c
  match checked.1 with
  | .error _ => (none, checked.2)
  | .ok _ =>
    let looped := runLoop p inputs (initState startTime)
    (some looped.1, checked.2 ++ looped.2.flatten)

/-- The Notifier invocations recorded in a trace, in order, with the
boolean each returned. -/
def sendsOf (evs : List Event) : List (String × Bool) :=
  evs.filterMap (fun e => match e with
    | .sendCall m ok => some (m, ok)
    | _ => none)

/-- Whether an event is the request-info log `get_api_answer` emits on
every call (so its absence witnesses that `get_api_answer` never ran).
-/
def Event.isLogInfo : Event → Bool
  | .logInfo _ => true
  | _ => false

/-- The error, if any, that the three pipeline stages of one cycle
raise into the `except Exception` handler, as a function of the cycle
input and the current cursor. -/
def cycleError (practicum_token : Option String) (http : HttpOutcome)
    (timestamp : PyValue) : Option PyError :=
  match (get_api_answer practicum_token http timestamp).1 with
  | .error e => some e
  | .ok response =>
    match check_response response with
    | .error e => some e
    | .ok .nil => none
    | .ok (.cons hw _) =>
      match parse_status hw with
      | .error e => some e
      | .ok _ => none

/-! Concrete fixtures used by the round-trip and counterexample
theorems: a single homework record named `X` in status `approved`,
wrapped in response bodies with and without `current_date`. -/

/-- The record `\x7b"homework_name": "X", "status": "approved"\x7d`. -/
def recX : PyValue :=
  .pdict (PyDict.ofList
    [("homework_name", .pstr "X"), ("status", .pstr "approved")])

/-- A response body carrying `recX` and `current_date = 111`. -/
def bodyX : PyValue :=
  .pdict (PyDict.ofList
    [("homeworks", .plist (PyList.ofList [recX])),
     ("current_date", .pint 111)])

/-- A response body carrying `recX` and `current_date = 999`. -/
def bodyX999 : PyValue :=
  .pdict (PyDict.ofList
    [("homeworks", .plist (PyList.ofList [recX])),
     ("current_date", .pint 999)])

/-- The sentence `parse_status` produces for `recX`. -/
def msgX : String :=
  "Изменился статус проверки работы \"X\". Работа проверена: ревьюеру всё понравилось. Ура!"

/-- A cycle whose fetch returns `bodyX` and whose delivery succeeds. -/
def inpDeliverX : CycleInput := ⟨.response 200 "OK" bodyX, .delivered⟩

/-- A cycle whose fetch returns `bodyX` and whose delivery fails with
an `ApiException`. -/
def inpFailX : CycleInput := ⟨.response 200 "OK" bodyX, .apiError "boom"⟩

/-- A cycle whose fetch hits a transport failure and whose delivery
would succeed. -/
def inpNetwork : CycleInput := ⟨.network, .delivered⟩

/-- Python falsiness of an `os.getenv` result: the variable is unset
or set to the empty string (the `if not token` test of line 39). -/
def falsyEnv (x : Option String) : Prop := x = none ∨ x = some ""

/-! Helper lemmas shared by the claim theorems. -/

/-- Unfolding of the `String.mk` field projection. -/
theorem string_mk_data (l : List Char) : (String.mk l).data = l := rfl

/-- `pyEscapeChars` distributes over concatenation. -/
theorem pyEscapeChars_append (a b : List Char) :
    pyEscapeChars (a ++ b) = pyEscapeChars a ++ pyEscapeChars b := by
  induction a with
  | nil => rfl
  | cons c cs ih =>
    simp only [List.cons_append, pyEscapeChars]
    split <;> simp [ih]

/-- Escaping is the identity on strings without quote or backslash. -/
theorem pyEscapeChars_id (l : List Char)
    (h : l.all (fun c => !(c == cSq) && !(c == cBs)) = true) :
    pyEscapeChars l = l := by
  induction l with
  | nil => rfl
  | cons c cs ih =>
    simp only [List.all_cons, Bool.and_eq_true, Bool.not_eq_true',
      beq_eq_false_iff_ne, ne_eq] at h
    simp only [pyEscapeChars]
    rw [if_neg (by tauto), ih]
    exact h.2

/-- A quote-free string contributes no quote to an `any` scan. -/
theorem any_sq_eq_false (l : List Char)
    (h : l.all (fun c => !(c == cSq) && !(c == cBs)) = true) :
    l.any (fun c => c == cSq) = false := by
  induction l with
  | nil => rfl
  | cons c cs ih =>
    simp only [List.all_cons, Bool.and_eq_true, Bool.not_eq_true'] at h
    simp only [List.any_cons, h.1.1, ih h.2, Bool.false_or]

/-- `repr` of `OAuth <token>` for a repr-safe token is the token
between single quotes, verbatim. -/
theorem pyReprOfStr_oauth (s : String) (h : reprSafe s = true) :
    pyReprOfStr ("OAuth " ++ s)
      = String.mk (cSq :: ("OAuth ".data ++ s.data) ++ [cSq]) := by
  unfold reprSafe at h
  have hd : ("OAuth " ++ s).data = "OAuth ".data ++ s.data :=
    String.data_append "OAuth " s
  unfold pyReprOfStr
  rw [hd, List.any_append, any_sq_eq_false s.data h]
  have hoa : ("OAuth ".data.any (fun c => c == cSq)) = false := rfl
  rw [hoa]
  simp only [Bool.or_self, Bool.false_and, Bool.false_eq_true, if_false]
  rw [pyEscapeChars_append, pyEscapeChars_id s.data h]
  have hoa2 : pyEscapeChars "OAuth ".data = "OAuth ".data := rfl
  rw [hoa2]

/-- The secret token appears verbatim inside the request-info log line
whenever it needs no `repr` escaping. -/
theorem token_in_requestLog (s : String) (ts : PyValue)
    (h : reprSafe s = true) :
    ∃ u v : List Char, u ++ s.data ++ v = (requestLog (some s) ts).data := by
  refine ⟨("Запрос к эндпоинту " ++ ENDPOINT ++ " с параметрами: " ++ "\x7b"
      ++ pyReprOfStr "Authorization" ++ ": ").data ++ (cSq :: "OAuth ".data),
    [cSq] ++ ("\x7d" ++ " и " ++ paramsRepr ts).data, ?_⟩
  simp only [requestLog, headersRepr, strDictRepr, strDictReprBody, HEADERS,
    optStr, pyReprOfStr_oauth s h, string_mk_data, String.data_append,
    List.append_assoc, List.cons_append, List.nil_append]

/-- `get_api_answer` always emits exactly the one request-info log
line, whatever the transport outcome. -/
theorem get_api_answer_snd (tok : Option String) (http : HttpOutcome)
    (ts : PyValue) :
    (get_api_answer tok http ts).2 = [.logInfo (requestLog tok ts)] := by
  cases http with
  | network => rfl
  | response status reason body =>
    simp only [get_api_answer]
    split
    · split <;> rfl
    · rfl

/-- Inversion: a fetch can only succeed on a 200 response, and then
returns exactly its body. -/
theorem get_api_answer_ok_inv (tok : Option String) (http : HttpOutcome)
    (ts : PyValue) (b : PyValue)
    (h : (get_api_answer tok http ts).1 = .ok b) :
    ∃ r, http = .response 200 r b := by
  cases http with
  | network => simp [get_api_answer] at h
  | response status reason body =>
    simp only [get_api_answer] at h
    by_cases hs : status = 200
    · subst hs
      simp only [ne_eq, not_true_eq_false, reduceIte, Except.ok.injEq] at h
      exact ⟨reason, by rw [h]⟩
    · rw [if_pos hs] at h
      split at h <;> simp at h

/-- Characterisation of the success path of one cycle: when the fetch
returns a 200 response whose validated list starts with a record that
interprets to `m`, the cycle is the dedup-guarded send of `m`. -/
theorem runCycle_success (tok : Option String) (inp : CycleInput)
    (st : MainState) (reason : String) (body hw : PyValue) (tl : PyList)
    (m : String)
    (h1 : inp.http = .response 200 reason body)
    (h2 : check_response body = .ok (.cons hw tl))
    (h3 : parse_status hw = .ok m) :
    runCycle tok inp st =
      if m ≠ st.last_status then
        match inp.send with
        | .delivered =>
          ({ last_status := m,
             timestamp := (body.dictGet "current_date").getD st.timestamp },
           [.logInfo (requestLog tok st.timestamp), .sendCall m true,
            .logDebug ("Сообщение отправлено - " ++ m),
            .sleepEv RETRY_PERIOD])
        | .apiError errStr =>
          (st, [.logInfo (requestLog tok st.timestamp), .sendCall m false,
                .logError ("Сбой при отправке сообщения: " ++ errStr),
                .sleepEv RETRY_PERIOD])
      else (st, [.logInfo (requestLog tok st.timestamp),
                 .sleepEv RETRY_PERIOD]) := by
  obtain ⟨http, send⟩ := inp
  simp only at h1
  subst h1
  cases send <;>
    simp only [runCycle, get_api_answer, send_message, h2, h3] <;>
    split <;> simp_all

/-- Characterisation of the empty-homeworks path: a debug log and the
`continue` straight into the sleep, state untouched. -/
theorem runCycle_empty (tok : Option String) (inp : CycleInput)
    (st : MainState) (reason : String) (body : PyValue)
    (h1 : inp.http = .response 200 reason body)
    (h2 : check_response body = .ok .nil) :
    runCycle tok inp st =
      (st, [.logInfo (requestLog tok st.timestamp),
            .logDebug "Получен пустой список домашних работ",
            .sleepEv RETRY_PERIOD]) := by
  obtain ⟨http, send⟩ := inp
  simp only at h1
  subst h1
  simp only [runCycle, get_api_answer, h2]
  split <;> simp_all

/-- Characterisation of a failing cycle: any pipeline error lands in
the `except Exception` handler with the one info log as prefix. -/
theorem runCycle_error (tok : Option String) (inp : CycleInput)
    (st : MainState) (e : PyError)
    (h : cycleError tok inp.http st.timestamp = some e) :
    runCycle tok inp st =
      errorHandler inp.send st e [.logInfo (requestLog tok st.timestamp)] := by
  have hev := get_api_answer_snd tok inp.http st.timestamp
  unfold cycleError at h
  simp only [runCycle]
  rw [hev]
  cases hga : (get_api_answer tok inp.http st.timestamp).1 with
  | error e2 =>
    rw [hga] at h
    simp only [Option.some.injEq] at h
    subst h
    rfl
  | ok response =>
    rw [hga] at h
    dsimp only at h ⊢
    cases hcr : check_response response with
    | error e2 =>
      rw [hcr] at h
      simp only [Option.some.injEq] at h
      subst h
      rfl
    | ok hws =>
      rw [hcr] at h
      cases hws with
      | nil => simp at h
      | cons hw tl =>
        dsimp only at h ⊢
        cases hps : parse_status hw with
        | error e2 =>
          rw [hps] at h
          simp only [Option.some.injEq] at h
          subst h
          rfl
        | ok m => rw [hps] at h; simp at h

/-- The handler of lines 129-133, written out: one dedup-guarded
delivery attempt of the diagnostic message, `last_status` advanced
only on confirmed delivery, cursor untouched, sleep at the end. -/
theorem errorHandler_eq (send : SendOutcome) (st : MainState) (e : PyError)
    (evPrev : List Event) :
    errorHandler send st e evPrev =
      if st.last_status ≠ ("Сбой в работе программы: " ++ e.toStr) then
        match send with
        | .delivered =>
          ({ st with last_status := "Сбой в работе программы: " ++ e.toStr },
           evPrev
             ++ [.logError ("Сбой в работе программы: " ++ e.toStr),
                 .sendCall ("Сбой в работе программы: " ++ e.toStr) true,
                 .logDebug ("Сообщение отправлено - "
                   ++ ("Сбой в работе программы: " ++ e.toStr)),
                 .sleepEv RETRY_PERIOD])
        | .apiError errStr =>
          (st, evPrev
             ++ [.logError ("Сбой в работе программы: " ++ e.toStr),
                 .sendCall ("Сбой в работе программы: " ++ e.toStr) false,
                 .logError ("Сбой при отправке сообщения: " ++ errStr),
                 .sleepEv RETRY_PERIOD])
      else
        (st, evPrev ++ [.logError ("Сбой в работе программы: " ++ e.toStr),
                        .sleepEv RETRY_PERIOD]) := by
  cases send <;>
    simp only [errorHandler, send_message] <;>
    split <;> simp_all

/-- A finite loop prefix runs one iteration per supplied input — no
input ever terminates the loop early. -/
theorem runLoop_length (tok : Option String) (inputs : List CycleInput)
    (st : MainState) :
    (runLoop tok inputs st).2.length = inputs.length := by
  induction inputs generalizing st with
  | nil => rfl
  | cons inp rest ih => simp [runLoop, ih]

/-- Exhaustive shape of one cycle with respect to the dedup state: the
state is untouched and nothing is sent, or the one attempted send
failed and the state is untouched, or the one send was confirmed and
`last_status` now holds exactly the delivered message. -/
theorem runCycle_cases (tok : Option String) (inp : CycleInput)
    (st : MainState) :
    ((runCycle tok inp st).1 = st ∧ sendsOf (runCycle tok inp st).2 = [])
    ∨ (∃ m, sendsOf (runCycle tok inp st).2 = [(m, false)]
        ∧ (runCycle tok inp st).1 = st ∧ inp.send ≠ .delivered)
    ∨ (∃ m, sendsOf (runCycle tok inp st).2 = [(m, true)]
        ∧ (runCycle tok inp st).1.last_status = m ∧ inp.send = .delivered
        ∧ m ≠ st.last_status) := by
  obtain ⟨http, send⟩ := inp
  cases hce : cycleError tok http st.timestamp with
  | some e =>
    have hrc := runCycle_error tok ⟨http, send⟩ st e hce
    rw [hrc, errorHandler_eq]
    cases send with
    | delivered =>
      by_cases hd : st.last_status = ("Сбой в работе программы: " ++ e.toStr)
      · rw [if_neg (fun hne => hne hd)]
        left; exact ⟨rfl, by simp [sendsOf]⟩
      · rw [if_pos hd]
        right; right
        exact ⟨_, by simp [sendsOf], rfl, rfl, Ne.symm hd⟩
    | apiError errStr =>
      by_cases hd : st.last_status = ("Сбой в работе программы: " ++ e.toStr)
      · rw [if_neg (fun hne => hne hd)]
        left; exact ⟨rfl, by simp [sendsOf]⟩
      · rw [if_pos hd]
        right; left
        exact ⟨"Сбой в работе программы: " ++ e.toStr,
          by simp [sendsOf], rfl, by simp⟩
  | none =>
    unfold cycleError at hce
    cases hga : (get_api_answer tok http st.timestamp).1 with
    | error e => rw [hga] at hce; simp at hce
    | ok response =>
      rw [hga] at hce
      dsimp only at hce
      obtain ⟨r, hh⟩ := get_api_answer_ok_inv tok http st.timestamp response hga
      cases hcr : check_response response with
      | error e => rw [hcr] at hce; simp at hce
      | ok hws =>
        cases hws with
        | nil =>
          have hrc := runCycle_empty tok ⟨http, send⟩ st r response
            (by simpa using hh) hcr
          rw [hrc]
          left; exact ⟨rfl, by simp [sendsOf]⟩
        | cons hw tl =>
          rw [hcr] at hce
          dsimp only at hce
          cases hps : parse_status hw with
          | error e => rw [hps] at hce; simp at hce
          | ok m =>
            have hrc := runCycle_success tok ⟨http, send⟩ st r response hw tl m
              (by simpa using hh) hcr hps
            rw [hrc]
            by_cases hm : m = st.last_status
            · rw [if_neg (fun hne => hne hm)]
              left; exact ⟨rfl, by simp [sendsOf]⟩
            · rw [if_pos hm]
              cases send with
              | delivered =>
                right; right
                exact ⟨m, by simp [sendsOf], rfl, rfl, hm⟩
              | apiError errStr =>
                right; left
                exact ⟨m, by simp [sendsOf], rfl, by simp⟩

/-! Claim theorems. -/

/-- C1: starting from the fresh state, a first cycle whose validated
response contains the single record `\x7bhomework_name: "X", status:
"approved"\x7d` delivers exactly the fixed sentence, and a repeat
cycle with the same record makes no Notifier call at all. -/
theorem claim_C1 :
    ((runLoop (some "token") [inpDeliverX, inpDeliverX]
        (initState 0)).2.map sendsOf)
      = [[("Изменился статус проверки работы \"X\". Работа проверена: ревьюеру всё понравилось. Ура!",
           true)], []] := rfl

/-- C2 counterexample: two consecutive cycles interpret the identical
message, yet the Notifier is invoked in both — the first delivery
fails, `last_status` stays empty, and the second cycle retries — so
the claimed "at most once in total" bound is false. -/
theorem claim_C2_counterexample :
    ((runLoop (some "token") [inpFailX, inpDeliverX]
        (initState 0)).2.map sendsOf) = [[(msgX, false)], [(msgX, true)]]
    ∧ (sendsOf ((runLoop (some "token") [inpFailX, inpDeliverX]
        (initState 0)).2.flatten)).length = 2 := ⟨rfl, rfl⟩

/-- C2 amended: across two consecutive cycles whose interpreted
messages are identical, the Notifier confirms delivery at most once in
total, and the second cycle invokes it only when the first cycle's
sole invocation failed to deliver. -/
theorem claim_C2_amended (tok : Option String) (st : MainState)
    (inp1 inp2 : CycleInput) (r1 r2 : String) (b1 b2 hw1 hw2 : PyValue)
    (tl1 tl2 : PyList) (m : String)
    (h11 : inp1.http = .response 200 r1 b1)
    (h12 : check_response b1 = .ok (.cons hw1 tl1))
    (h13 : parse_status hw1 = .ok m)
    (h21 : inp2.http = .response 200 r2 b2)
    (h22 : check_response b2 = .ok (.cons hw2 tl2))
    (h23 : parse_status hw2 = .ok m) :
    (((sendsOf (runCycle tok inp1 st).2
        ++ sendsOf (runCycle tok inp2 (runCycle tok inp1 st).1).2).filter
        (fun x => x.2)).length ≤ 1)
    ∧ (sendsOf (runCycle tok inp2 (runCycle tok inp1 st).1).2 ≠ []
        → sendsOf (runCycle tok inp1 st).2 = [(m, false)]) := by
  have hc1 := runCycle_success tok inp1 st r1 b1 hw1 tl1 m h11 h12 h13
  by_cases hm : m = st.last_status
  · rw [if_neg (fun hne => hne hm)] at hc1
    have hc2 := runCycle_success tok inp2 (runCycle tok inp1 st).1 r2 b2 hw2
      tl2 m h21 h22 h23
    rw [hc1] at hc2 ⊢
    rw [if_neg (fun hne => hne hm)] at hc2
    rw [hc2]
    exact ⟨by simp [sendsOf], fun hne => absurd (by simp [sendsOf]) hne⟩
  · rw [if_pos hm] at hc1
    cases hs1 : inp1.send with
    | delivered =>
      rw [hs1] at hc1
      have hc2 := runCycle_success tok inp2 (runCycle tok inp1 st).1 r2 b2
        hw2 tl2 m h21 h22 h23
      rw [hc1] at hc2 ⊢
      rw [if_neg (fun hne => hne rfl)] at hc2
      rw [hc2]
      exact ⟨by simp [sendsOf], fun hne => absurd (by simp [sendsOf]) hne⟩
    | apiError a =>
      rw [hs1] at hc1
      have hc2 := runCycle_success tok inp2 (runCycle tok inp1 st).1 r2 b2
        hw2 tl2 m h21 h22 h23
      rw [hc1] at hc2 ⊢
      rw [if_pos hm] at hc2
      cases hs2 : inp2.send with
      | delivered =>
        rw [hs2] at hc2
        rw [hc2]
        exact ⟨by simp [sendsOf], fun _ => by simp [sendsOf]⟩
      | apiError a2 =>
        rw [hs2] at hc2
        rw [hc2]
        exact ⟨by simp [sendsOf], fun _ => by simp [sendsOf]⟩

/-- C2 amended, witnessed on the concrete retry scenario: first
delivery fails, the retry succeeds. -/
theorem claim_C2_amended_witness :
    (((sendsOf (runCycle (some "token") inpFailX (initState 0)).2
        ++ sendsOf (runCycle (some "token") inpDeliverX
            (runCycle (some "token") inpFailX (initState 0)).1).2).filter
        (fun x => x.2)).length ≤ 1)
    ∧ (sendsOf (runCycle (some "token") inpDeliverX
          (runCycle (some "token") inpFailX (initState 0)).1).2 ≠ []
        → sendsOf (runCycle (some "token") inpFailX (initState 0)).2
            = [(msgX, false)]) :=
  claim_C2_amended (some "token") (initState 0) inpFailX inpDeliverX "OK" "OK"
    bodyX bodyX recX recX .nil .nil msgX rfl rfl rfl rfl rfl rfl

/-- C3 counterexample: a successful cycle (no exception) whose
response carries `current_date = 999`, but whose interpreted message
equals `last_status`, leaves the cursor at its old value `5` — the
claimed unconditional advance to `current_date` is false. -/
theorem claim_C3_counterexample :
    (runCycle (some "token") ⟨.response 200 "OK" bodyX999, .delivered⟩
        ⟨msgX, .pint 5⟩).1.timestamp = .pint 5
    ∧ cycleError (some "token") (.response 200 "OK" bodyX999) (.pint 5) = none
    ∧ (PyValue.pint 5 ≠ PyValue.pint 999) :=
  ⟨rfl, rfl, by simp⟩

/-- C3 amended: on a cycle whose pipeline succeeds with interpreted
message `m`, the cursor advances to the response's `current_date`
(unchanged when the field is absent) exactly when `m` differs from
`last_status` and delivery is confirmed; on a dedup no-op or a failed
delivery the cursor is unchanged. -/
theorem claim_C3_amended (tok : Option String) (inp : CycleInput)
    (st : MainState) (r : String) (body hw : PyValue) (tl : PyList)
    (m : String)
    (h1 : inp.http = .response 200 r body)
    (h2 : check_response body = .ok (.cons hw tl))
    (h3 : parse_status hw = .ok m) :
    ((m ≠ st.last_status ∧ inp.send = .delivered) →
      (runCycle tok inp st).1.timestamp
        = (body.dictGet "current_date").getD st.timestamp)
    ∧ ((m = st.last_status ∨ inp.send ≠ .delivered) →
      (runCycle tok inp st).1.timestamp = st.timestamp) := by
  have hc := runCycle_success tok inp st r body hw tl m h1 h2 h3
  constructor
  · rintro ⟨hne, hsend⟩
    rw [if_pos hne, hsend] at hc
    rw [hc]
  · intro hor
    rcases hor with hm | hsendne
    · rw [if_neg (fun hne => hne hm)] at hc
      rw [hc]
    · cases hs : inp.send with
      | delivered => exact absurd hs hsendne
      | apiError a =>
        rw [hs] at hc
        by_cases hm : m = st.last_status
        · rw [if_neg (fun hne => hne hm)] at hc
          rw [hc]
        · rw [if_pos hm] at hc
          rw [hc]

/-- C3 amended, witnessed: a fresh state, a delivered new message, and
`current_date = 999` advance the cursor to `999`. -/
theorem claim_C3_amended_witness :
    (runCycle (some "token") ⟨.response 200 "OK" bodyX999, .delivered⟩
        (initState 0)).1.timestamp
      = (bodyX999.dictGet "current_date").getD (initState 0).timestamp :=
  (claim_C3_amended (some "token") ⟨.response 200 "OK" bodyX999, .delivered⟩
      (initState 0) "OK" bodyX999 recX .nil msgX rfl rfl rfl).1
    ⟨by decide, rfl⟩

/-- C4: on a non-200 response the formatting of the
`InvalidResponseCode` message itself raises, so `get_api_answer` fails
with `KeyError` whose argument is the unbound field name `response`;
neither the status code nor the reason phrase reaches the error. -/
theorem claim_C4_code_bug :
    get_api_answer (some "token")
        (.response 404 "Not Found" (.pdict .nil)) (.pint 0)
      = (.error (.keyError "response"),
         [.logInfo (requestLog (some "token") (.pint 0))]) := rfl

/-- C5: whenever one of the three pipeline stages raises, the cycle
ends in the handler of lines 129-133: the diagnostic message is
logged, one dedup-guarded delivery attempt is made, `last_status`
advances only on confirmed delivery, the cursor is untouched, the
cycle closes with the fixed sleep, and the loop goes on to run every
remaining scheduled cycle. -/
theorem claim_C5 (tok : Option String) (inp : CycleInput) (st : MainState)
    (e : PyError) (rest : List CycleInput)
    (h : cycleError tok inp.http st.timestamp = some e) :
    (runCycle tok inp st =
      if st.last_status ≠ ("Сбой в работе программы: " ++ e.toStr) then
        match inp.send with
        | .delivered =>
          ({ st with last_status := "Сбой в работе программы: " ++ e.toStr },
           [.logInfo (requestLog tok st.timestamp),
            .logError ("Сбой в работе программы: " ++ e.toStr),
            .sendCall ("Сбой в работе программы: " ++ e.toStr) true,
            .logDebug ("Сообщение отправлено - "
              ++ ("Сбой в работе программы: " ++ e.toStr)),
            .sleepEv RETRY_PERIOD])
        | .apiError errStr =>
          (st, [.logInfo (requestLog tok st.timestamp),
                .logError ("Сбой в работе программы: " ++ e.toStr),
                .sendCall ("Сбой в работе программы: " ++ e.toStr) false,
                .logError ("Сбой при отправке сообщения: " ++ errStr),
                .sleepEv RETRY_PERIOD])
      else
        (st, [.logInfo (requestLog tok st.timestamp),
              .logError ("Сбой в работе программы: " ++ e.toStr),
              .sleepEv RETRY_PERIOD]))
    ∧ (runLoop tok (inp :: rest) st).2.length = rest.length + 1 := by
  constructor
  · rw [runCycle_error tok inp st e h, errorHandler_eq]
    split
    · cases inp.send <;> rfl
    · rfl
  · simp [runLoop, runLoop_length]

/-- C5, witnessed on a transport failure with confirmed delivery of
the diagnostic: the loop still runs its one scheduled cycle. -/
theorem claim_C5_witness :
    (runLoop (some "token") [inpNetwork] (initState 0)).2.length = 0 + 1 :=
  (claim_C5 (some "token") inpNetwork (initState 0)
    (.connectionError (connectionErrMsg (some "token") (.pint 0))) []
    rfl).2

/-- C6: `send_message` returns `true` on confirmed delivery and
`false` on a delivery-channel failure; its total return type has no
error component, which is the non-throwing contract, and the failure
is logged at error severity. -/
theorem claim_C6 (msg errStr : String) :
    (send_message .delivered msg).1 = true
    ∧ (send_message (.apiError errStr) msg).1 = false
    ∧ (send_message (.apiError errStr) msg).2
        = [.sendCall msg false,
           .logError ("Сбой при отправке сообщения: " ++ errStr)] :=
  ⟨rfl, rfl, rfl⟩

/-- C7: `last_status` starts empty; whenever a cycle changes it, the
new value is exactly a message the Notifier confirmed with `true`
during that cycle; and on a cycle whose delivery channel fails, the
whole state — `last_status` included — is left unchanged, so the same
message is retried next cycle. -/
theorem claim_C7 (startTime : Int) (tok : Option String) (inp : CycleInput)
    (st : MainState) :
    (initState startTime).last_status = ""
    ∧ ((runCycle tok inp st).1.last_status ≠ st.last_status →
        ((runCycle tok inp st).1.last_status, true)
          ∈ sendsOf (runCycle tok inp st).2)
    ∧ (∀ errStr, inp.send = .apiError errStr → (runCycle tok inp st).1 = st) := by
  refine ⟨rfl, ?_, ?_⟩
  · intro hne
    rcases runCycle_cases tok inp st with ⟨h1, _⟩ | ⟨m, _, h2, _⟩ |
      ⟨m, h1, h2, _, _⟩
    · exact absurd (by rw [h1]) hne
    · exact absurd (by rw [h2]) hne
    · rw [h2, h1]; exact List.mem_singleton.mpr rfl
  · intro errStr hsend
    rcases runCycle_cases tok inp st with ⟨h1, _⟩ | ⟨m, _, h2, _⟩ |
      ⟨m, _, _, h3, _⟩
    · exact h1
    · exact h2
    · rw [hsend] at h3; exact absurd h3 (by simp)

/-- C7, witnessed: the concrete delivered cycle changed `last_status`,
and the new value was indeed confirmed by the Notifier. -/
theorem claim_C7_witness :
    ((runCycle (some "token") inpDeliverX (initState 0)).1.last_status, true)
      ∈ sendsOf (runCycle (some "token") inpDeliverX (initState 0)).2 :=
  (claim_C7 0 (some "token") inpDeliverX (initState 0)).2.1 (by decide)

/-- C8 counterexample: the request-info log line contains the secret
token verbatim (the format string interpolates the whole `HEADERS`
dict, token included), refuting "describes the url only and never
contains the secret API token". -/
theorem claim_C8_counterexample :
    ∃ u v : List Char,
      u ++ ("SECRET123").data ++ v
        = (requestLog (some "SECRET123") (.pint 1700000000)).data :=
  token_in_requestLog "SECRET123" (.pint 1700000000) (by decide)

/-- C8 amended: the informational log line describes the url, the
headers and the params; in particular, for every repr-safe token and
every cursor value the secret token appears verbatim in the line. -/
theorem claim_C8_amended (s : String) (ts : PyValue)
    (h : reprSafe s = true) :
    ∃ u v : List Char, u ++ s.data ++ v = (requestLog (some s) ts).data :=
  token_in_requestLog s ts h

/-- C8 amended, witnessed at a second concrete token and cursor. -/
theorem claim_C8_amended_witness :
    ∃ u v : List Char,
      u ++ ("TOKEN7").data ++ v = (requestLog (some "TOKEN7") .pnone).data :=
  claim_C8_amended "TOKEN7" .pnone (by decide)

/-- C9: with any credential unset or empty, the run is exactly the
critical log followed by the `AssertionError` termination (the `none`
final state): the loop never starts, no request-info line is ever
logged (`get_api_answer` never runs) and the Notifier is never
invoked. -/
theorem claim_C9 (p t c : Option String) (startTime : Int)
    (inputs : List CycleInput)
    (h : falsyEnv p ∨ falsyEnv t ∨ falsyEnv c) :
    mainRun p t c startTime inputs
      = (none, [.logCritical ("Отсутствует переменная(ые) окружения: "
          ++ String.intercalate ", " (missing_tokens p t c))])
    ∧ sendsOf (mainRun p t c startTime inputs).2 = []
    ∧ (mainRun p t c startTime inputs).2.filter Event.isLogInfo = [] := by
  have hne : (missing_tokens p t c).isEmpty = false := by
    rcases h with hp | ht | hc
    · rcases hp with rfl | rfl <;> simp [missing_tokens]
    · rcases ht with rfl | rfl <;>
        · simp only [missing_tokens, List.filter, List.map]
          split <;> simp
    · rcases hc with rfl | rfl <;>
        · simp only [missing_tokens, List.filter, List.map]
          split <;> split <;> simp
  have hmr : mainRun p t c startTime inputs
      = (none, [.logCritical ("Отсутствует переменная(ые) окружения: "
          ++ String.intercalate ", " (missing_tokens p t c))]) := by
    simp [mainRun, check_tokens, hne]
  refine ⟨hmr, ?_, ?_⟩ <;> rw [hmr] <;> rfl

/-- C9, witnessed with the API token unset. -/
theorem claim_C9_witness :
    mainRun none (some "tt") (some "cc") 0 [inpDeliverX]
      = (none,
         [.logCritical
           "Отсутствует переменная(ые) окружения: PRACTICUM_TOKEN"])
    ∧ sendsOf (mainRun none (some "tt") (some "cc") 0 [inpDeliverX]).2 = []
    ∧ (mainRun none (some "tt") (some "cc") 0 [inpDeliverX]).2.filter
        Event.isLogInfo = [] :=
  claim_C9 none (some "tt") (some "cc") 0 [inpDeliverX] (Or.inl (Or.inl rfl))

/-- C10: after a successfully delivered status message `m`, a failing
cycle whose diagnostic is delivered overwrites `last_status` with the
error text, so a third cycle interpreting the very same `m` passes the
dedup check and sends `m` again. -/
theorem claim_C10 (tok : Option String) (st0 : MainState)
    (inp1 inp2 inp3 : CycleInput) (r1 r3 : String) (b1 b3 hw1 hw3 : PyValue)
    (tl1 tl3 : PyList) (m : String)
    (h11 : inp1.http = .response 200 r1 b1)
    (h12 : check_response b1 = .ok (.cons hw1 tl1))
    (h13 : parse_status hw1 = .ok m)
    (h14 : inp1.send = .delivered)
    (h15 : m ≠ st0.last_status)
    (h21 : inp2.http = .network)
    (h24 : inp2.send = .delivered)
    (h2m : ("Сбой в работе программы: "
        ++ connectionErrMsg tok (runCycle tok inp1 st0).1.timestamp) ≠ m)
    (h31 : inp3.http = .response 200 r3 b3)
    (h32 : check_response b3 = .ok (.cons hw3 tl3))
    (h33 : parse_status hw3 = .ok m)
    (h34 : inp3.send = .delivered) :
    ((runCycle tok inp1 st0).1.last_status = m)
    ∧ ((runCycle tok inp2 (runCycle tok inp1 st0).1).1.last_status
        = "Сбой в работе программы: "
          ++ connectionErrMsg tok (runCycle tok inp1 st0).1.timestamp)
    ∧ sendsOf (runCycle tok inp3
        (runCycle tok inp2 (runCycle tok inp1 st0).1).1).2 = [(m, true)] := by
  have hc1 := runCycle_success tok inp1 st0 r1 b1 hw1 tl1 m h11 h12 h13
  rw [if_pos h15, h14] at hc1
  have hst1 : (runCycle tok inp1 st0).1.last_status = m := by rw [hc1]
  have hce2 : cycleError tok inp2.http (runCycle tok inp1 st0).1.timestamp
      = some (.connectionError
          (connectionErrMsg tok (runCycle tok inp1 st0).1.timestamp)) := by
    rw [h21]; rfl
  have hc2 := runCycle_error tok inp2 (runCycle tok inp1 st0).1 _ hce2
  rw [errorHandler_eq, h24] at hc2
  have hne2 : (runCycle tok inp1 st0).1.last_status
      ≠ ("Сбой в работе программы: "
          ++ (PyError.connectionError
            (connectionErrMsg tok (runCycle tok inp1 st0).1.timestamp)).toStr) := by
    rw [hst1]
    exact fun hq => h2m hq.symm
  rw [if_pos hne2] at hc2
  have hst2 : (runCycle tok inp2 (runCycle tok inp1 st0).1).1.last_status
      = "Сбой в работе программы: "
        ++ connectionErrMsg tok (runCycle tok inp1 st0).1.timestamp := by
    rw [hc2]; rfl
  have hc3 := runCycle_success tok inp3
    (runCycle tok inp2 (runCycle tok inp1 st0).1).1 r3 b3 hw3 tl3 m
    h31 h32 h33
  have hne3 : m ≠ (runCycle tok inp2 (runCycle tok inp1 st0).1).1.last_status := by
    rw [hst2]
    exact fun hq => h2m hq.symm
  rw [if_pos hne3, h34] at hc3
  refine ⟨hst1, hst2, ?_⟩
  rw [hc3]
  simp [sendsOf]

/-- C10, witnessed on the concrete deliver-fail-redeliver run. -/
theorem claim_C10_witness :
    sendsOf (runCycle (some "token") inpDeliverX
        (runCycle (some "token") inpNetwork
          (runCycle (some "token") inpDeliverX (initState 0)).1).1).2
      = [(msgX, true)] :=
  (claim_C10 (some "token") (initState 0) inpDeliverX inpNetwork inpDeliverX
    "OK" "OK" bodyX bodyX recX recX .nil .nil msgX rfl rfl rfl rfl
    (by decide) rfl rfl (by decide) rfl rfl rfl rfl).2.2

end HomeworkBot
